import Mathlib

/-!
Verification of the YouTrack MCP tool façades (`tools/issues.py`,
`tools/projects.py`) against their natural-language specification.

The façades are shallowly embedded: Python runtime values become the
inductive type `PyVal`, exceptions become `PyExn`, and the underlying
HTTP client / API resource layer (an external collaborator from the
façades' point of view) becomes an abstract oracle `Env` that maps a
call history and a call to either a value or a raised exception.  Each
tool method is translated into a Lean function that returns the JSON
string produced (or, hypothetically, an uncaught exception) together
with the list of remote calls it performed, mirroring the source's
`try`/`except` routing statement by statement.
-/

/-- A Python exception as observed by the façades: its `str()` message and,
for HTTP-layer errors, the optional decoded response body content used by
`create_issue`'s error reporting. -/
structure PyExn where
  msg : String
  response : Option String := Option.none
deriving Repr

/-- Python runtime values as they flow through the façades: JSON scalars,
lists, string-keyed dicts, and API-layer objects.  An `obj` carries whether
it supports `model_dump` (Pydantic models), its attribute dictionary, and
its `str()` representation. -/
inductive PyVal where
  | none : PyVal
  | bool (b : Bool) : PyVal
  | int (n : Int) : PyVal
  | str (s : String) : PyVal
  | list (xs : List PyVal) : PyVal
  | dict (fields : List (String × PyVal)) : PyVal
  | obj (hasDump : Bool) (attrs : List (String × PyVal)) (strRepr : String) : PyVal

/-- Python truthiness (`bool(v)`): empty containers, empty strings, zero,
`False` and `None` are falsy; objects are always truthy. -/
def PyVal.truthy : PyVal → Bool
  | .none => false
  | .bool b => b
  | .int n => n != 0
  | .str s => !s.isEmpty
  | .list xs => !xs.isEmpty
  | .dict fs => !fs.isEmpty
  | .obj _ _ _ => true

/-- `hasattr(v, name)`: only API-layer objects expose attributes here;
`model_dump` is governed by the object's `hasDump` capability flag. -/
def PyVal.hasAttr : PyVal → String → Bool
  | .obj d attrs _, name =>
      if name = "model_dump" then d else (attrs.lookup name).isSome
  | _, _ => false

/-- `getattr(v, name)` raising `AttributeError` when absent. -/
def pyGetattr (v : PyVal) (name : String) : Except PyExn PyVal :=
  match v with
  | .obj _ attrs _ =>
      match attrs.lookup name with
      | some x => .ok x
      | Option.none => .error ⟨"object has no attribute '" ++ name ++ "'", Option.none⟩
  | _ => .error ⟨"object has no attribute '" ++ name ++ "'", Option.none⟩

/-- `getattr(v, name, default)`: total variant. -/
def pyGetattrD (v : PyVal) (name : String) (dflt : PyVal) : PyVal :=
  match v with
  | .obj _ attrs _ =>
      match attrs.lookup name with
      | some x => x
      | Option.none => dflt
  | _ => dflt

/-- `v.model_dump()` for a Pydantic model: its field dictionary. -/
def PyVal.modelDump : PyVal → PyVal
  | .obj _ attrs _ => .dict attrs
  | v => v

/-- `d.get(key)` on a dict: the value or `None`. -/
def dictGet (fs : List (String × PyVal)) (k : String) : PyVal :=
  match fs.lookup k with
  | some v => v
  | Option.none => .none

/-- Lookup of a key in a dict-shaped value (used to state properties of
produced response dictionaries). -/
def dictLookup (v : PyVal) (k : String) : Option PyVal :=
  match v with
  | .dict fs => fs.lookup k
  | _ => Option.none

/-- `d[key] = v` on a dict: replace in place when the key exists
(preserving insertion order, as CPython does), else append. -/
def assocSet : List (String × PyVal) → String → PyVal → List (String × PyVal)
  | [], k, v => [(k, v)]
  | (k', v') :: rest, k, v =>
      if k' = k then (k', v) :: rest else (k', v') :: assocSet rest k v

/-- Iteration (`for x in v`): lists yield their elements, strings their
characters, dicts their keys; other values raise `TypeError`. -/
def pyIter : PyVal → Except PyExn (List PyVal)
  | .list xs => .ok xs
  | .str s => .ok (s.toList.map fun ch => .str (String.singleton ch))
  | .dict fs => .ok (fs.map fun kv => .str kv.1)
  | _ => .error ⟨"object is not iterable", Option.none⟩

/-- Hexadecimal digit for `\uXXXX` escapes. -/
def hexDigit (n : Nat) : Char :=
  if n < 10 then Char.ofNat (48 + n) else Char.ofNat (87 + (n % 6))

/-- Four-digit hexadecimal rendering. -/
def hex4 (n : Nat) : String :=
  String.mk [hexDigit (n / 4096 % 16), hexDigit (n / 256 % 16),
             hexDigit (n / 16 % 16), hexDigit (n % 16)]

/-- JSON string escaping as `json.dumps` performs it (`ensure_ascii` on):
quote, backslash and control characters get short escapes, other
control/non-ASCII characters become `\uXXXX` (with surrogate pairs above
the BMP). -/
def jsonEscapeChar (c : Char) : String :=
  if c = '"' then "\\\""
  else if c = '\\' then "\\\\"
  else if c = '\n' then "\\n"
  else if c = '\t' then "\\t"
  else if c = '\r' then "\\r"
  else if c.toNat < 32 then "\\u" ++ hex4 c.toNat
  else if c.toNat < 128 then String.singleton c
  else if c.toNat < 65536 then "\\u" ++ hex4 c.toNat
  else
    let v := c.toNat - 65536
    "\\u" ++ hex4 (55296 + v / 1024) ++ "\\u" ++ hex4 (56320 + v % 1024)

/-- Escape every character of a JSON string body. -/
def jsonEscape (s : String) : String :=
  String.join (s.toList.map jsonEscapeChar)

/-- A JSON string literal: quotes around the escaped body. -/
def jsonQuote (s : String) : String := "\"" ++ jsonEscape s ++ "\""

mutual
/-- `json.dumps(v)` without indentation (separators `", "` and `": "`), as
used by the façades' error envelopes; raises `TypeError` on API-layer
objects, which are not JSON serializable. -/
def dumpsVal : PyVal → Except PyExn String
  | .none => .ok "null"
  | .bool b => .ok (if b then "true" else "false")
  | .int n => .ok (toString n)
  | .str s => .ok (jsonQuote s)
  | .list xs => do
      let ss ← dumpsList xs
      .ok ("[" ++ String.intercalate ", " ss ++ "]")
  | .dict fs => do
      let ss ← dumpsFields fs
      .ok ("\x7b" ++ String.intercalate ", " ss ++ "\x7d")
  | .obj _ _ _ => .error ⟨"Object is not JSON serializable", Option.none⟩

/-- Serialize the elements of a JSON array. -/
def dumpsList : List PyVal → Except PyExn (List String)
  | [] => .ok []
  | x :: xs => do
      let s ← dumpsVal x
      let ss ← dumpsList xs
      .ok (s :: ss)

/-- Serialize the entries of a JSON object. -/
def dumpsFields : List (String × PyVal) → Except PyExn (List String)
  | [] => .ok []
  | (k, v) :: fs => do
      let s ← dumpsVal v
      let ss ← dumpsFields fs
      .ok ((jsonQuote k ++ ": " ++ s) :: ss)
end

/-- Indentation padding: `2 * level` spaces, as `indent=2` produces. -/
def jsonPad (level : Nat) : String := String.mk (List.replicate (2 * level) ' ')

mutual
/-- `json.dumps(v, indent=2)` at nesting depth `level` (separators become
`","` and `": "`, entries go on their own indented lines). -/
def dumpsInd (level : Nat) : PyVal → Except PyExn String
  | .none => .ok "null"
  | .bool b => .ok (if b then "true" else "false")
  | .int n => .ok (toString n)
  | .str s => .ok (jsonQuote s)
  | .list xs =>
      match xs with
      | [] => .ok "[]"
      | _ => do
          let ss ← dumpsIndList level xs
          .ok ("[\n" ++ String.intercalate ",\n" ss ++ "\n" ++ jsonPad level ++ "]")
  | .dict fs =>
      match fs with
      | [] => .ok "\x7b\x7d"
      | _ => do
          let ss ← dumpsIndFields level fs
          .ok ("\x7b\n" ++ String.intercalate ",\n" ss ++ "\n" ++ jsonPad level ++ "\x7d")
  | .obj _ _ _ => .error ⟨"Object is not JSON serializable", Option.none⟩

/-- Indented serialization of array elements. -/
def dumpsIndList (level : Nat) : List PyVal → Except PyExn (List String)
  | [] => .ok []
  | x :: xs => do
      let s ← dumpsInd (level + 1) x
      let ss ← dumpsIndList level xs
      .ok ((jsonPad (level + 1) ++ s) :: ss)

/-- Indented serialization of object entries. -/
def dumpsIndFields (level : Nat) : List (String × PyVal) → Except PyExn (List String)
  | [] => .ok []
  | (k, v) :: fs => do
      let s ← dumpsInd (level + 1) v
      let ss ← dumpsIndFields level fs
      .ok ((jsonPad (level + 1) ++ jsonQuote k ++ ": " ++ s) :: ss)
end

/-- Escape a character inside a single-quoted Python `repr` string. -/
def pyReprEscapeChar (c : Char) : String :=
  if c = '\\' then "\\\\"
  else if c = '\'' then "\\'"
  else if c = '\n' then "\\n"
  else if c = '\t' then "\\t"
  else if c = '\r' then "\\r"
  else String.singleton c

/-- Python `repr` of a string: single quotes around the escaped body. -/
def pyStrRepr (s : String) : String :=
  "'" ++ String.join (s.toList.map pyReprEscapeChar) ++ "'"

mutual
/-- Python `repr(v)` for the value fragment the façades can stringify:
scalars as CPython prints them, containers recursively, objects by their
recorded `str()`/`repr()` text. -/
def pyRepr : PyVal → String
  | .none => "None"
  | .bool b => if b then "True" else "False"
  | .int n => toString n
  | .str s => pyStrRepr s
  | .list xs => "[" ++ String.intercalate ", " (pyReprList xs) ++ "]"
  | .dict fs => "\x7b" ++ String.intercalate ", " (pyReprFields fs) ++ "\x7d"
  | .obj _ _ r => r

/-- `repr` of the elements of a list. -/
def pyReprList : List PyVal → List String
  | [] => []
  | x :: xs => pyRepr x :: pyReprList xs

/-- `repr` of the entries of a dict. -/
def pyReprFields : List (String × PyVal) → List String
  | [] => []
  | (k, v) :: fs => (pyStrRepr k ++ ": " ++ pyRepr v) :: pyReprFields fs
end

/-- Python `str(v)`: strings unchanged, everything else as `repr`. -/
def pyStr : PyVal → String
  | .str s => s
  | v => pyRepr v

/-- Python `a or b` on optional strings (`None` and `''` are falsy). -/
def pyOrStr : Option String → Option String → Option String
  | some s, b => if s.isEmpty then b else some s
  | Option.none, b => b

/-- Truthiness of an optional string argument (`None` and `''` falsy). -/
def optTruthy : Option String → Bool
  | some s => !s.isEmpty
  | Option.none => false

/-- An optional string argument as the Python value it denotes. -/
def optStrToPy : Option String → PyVal
  | some s => .str s
  | Option.none => .none

/-- The remote calls a façade method can issue: raw HTTP-client calls and
calls into the `IssuesClient` / `ProjectsClient` API resources. -/
inductive Call where
  | get (path : String) (params : List (String × PyVal)) : Call
  | post (path : String) (data : PyVal) : Call
  | apiCreateIssue (projectId : PyVal) (summary : String)
      (description : Option String) (additionalFields : PyVal) : Call
  | apiAddComment (issueId : String) (text : String) : Call
  | apiGetProjects (includeArchived : Bool) : Call
  | apiGetProject (id : String) : Call
  | apiGetProjectByName (name : String) : Call
  | apiGetProjectIssues (projectId : PyVal) (limit : Int) : Call
  | apiGetCustomFields (projectId : String) : Call
  | apiGetProjectDetailed (projectId : String) : Call
  | apiGetProjectFieldsFromIssues (projectId : String) : Call
  | apiCreateProject (name shortName leadId : String) (description : Option String) : Call

/-- The external collaborators of the façades: the HTTP client / API
resource layer, modelled as an oracle from the call history so far and the
current call to a returned value or a raised exception, together with the
configured `Config.YOUTRACK_URL` base URL (empty when unset). -/
structure Env where
  api : List Call → Call → Except PyExn PyVal
  url : String

/-- Result of one tool invocation: the value returned to the protocol
server (`.ok` a JSON string; `.error` would be an uncaught exception) and
the ordered list of remote calls performed. -/
abbrev TRes := Except PyExn String × List Call

/-- `json.dumps` of a literal dict whose values are strings, as the
façades' error envelopes are built (always serializable, hence total). -/
def dumpsStrObj (kvs : List (String × String)) : String :=
  "\x7b" ++ String.intercalate ", "
      (kvs.map fun kv => jsonQuote kv.1 ++ ": " ++ jsonQuote kv.2) ++ "\x7d"

/-- The explicit field list `IssueTools.get_issue` / `search_issues`
request from the API. -/
def issueFieldList : String :=
  "id,idReadable,summary,description,created,updated," ++
  "project(id,name,shortName),reporter(id,login,name)," ++
  "assignee(id,login,name),customFields(id,name,value)"

/-- Whether `get_issue`'s minimal-response check fires: the raw value is a
dict whose `$type` equals `'Issue'` and which has no `summary` key. -/
def needsDefaultSummary (raw : PyVal) : Bool :=
  match raw with
  | .dict fs =>
      (match fs.lookup "$type" with
       | some (.str s) => s = "Issue"
       | _ => false) && (fs.lookup "summary").isNone
  | _ => false

/-- The minimal-response enhancement in `get_issue` (lines 47-48): add a
default summary `'Issue <issue_id>'` when the check fires. -/
def enhanceIssue (issueId : String) (raw : PyVal) : PyVal :=
  if needsDefaultSummary raw then
    match raw with
    | .dict fs => .dict (fs ++ [("summary", .str ("Issue " ++ issueId))])
    | v => v
  else raw

/-- `IssueTools.get_issue`: one GET with the explicit field list, the
minimal-response enhancement, then `json.dumps(..., indent=2)`; any fault
becomes `json.dumps({'error': str(e)})`. -/
def getIssue (env : Env) (issueId : String) : TRes :=
  let c := Call.get ("issues/" ++ issueId ++ "?fields=" ++ issueFieldList) []
  match env.api [] c with
  | .error e => (.ok (dumpsStrObj [("error", e.msg)]), [c])
  | .ok raw0 =>
      let raw := enhanceIssue issueId raw0
      match dumpsInd 0 raw with
      | .ok s => (.ok s, [c])
      | .error e => (.ok (dumpsStrObj [("error", e.msg)]), [c])

/-- `IssueTools.get_issue_raw`: one GET without a field list, dumped
directly; same fault contract. -/
def getIssueRaw (env : Env) (issueId : String) : TRes :=
  let c := Call.get ("issues/" ++ issueId) []
  match env.api [] c with
  | .error e => (.ok (dumpsStrObj [("error", e.msg)]), [c])
  | .ok raw =>
      match dumpsInd 0 raw with
      | .ok s => (.ok s, [c])
      | .error e => (.ok (dumpsStrObj [("error", e.msg)]), [c])

/-- `IssueTools.search_issues`: one parametrized GET, dumped directly;
same fault contract. -/
def searchIssues (env : Env) (query : String) (limit : Int) : TRes :=
  let c := Call.get "issues"
      [("query", .str query), ("$top", .int limit), ("fields", .str issueFieldList)]
  match env.api [] c with
  | .error e => (.ok (dumpsStrObj [("error", e.msg)]), [c])
  | .ok raw =>
      match dumpsInd 0 raw with
      | .ok s => (.ok s, [c])
      | .error e => (.ok (dumpsStrObj [("error", e.msg)]), [c])

/-- `IssueTools.add_comment`: one POST via the issues API, dumped
directly; same fault contract. -/
def addComment (env : Env) (issueId text : String) : TRes :=
  let c := Call.apiAddComment issueId text
  match env.api [] c with
  | .error e => (.ok (dumpsStrObj [("error", e.msg)]), [c])
  | .ok r =>
      match dumpsInd 0 r with
      | .ok s => (.ok s, [c])
      | .error e => (.ok (dumpsStrObj [("error", e.msg)]), [c])

/-- Python `s.startswith(pre)`, computed over the character lists so that
it evaluates on literals. -/
def pyStartsWith (s pre : String) : Bool :=
  pre.toList.isPrefixOf s.toList

/-- The error envelope of `create_issue`'s validation and resolution
failures: `json.dumps({'error': msg, 'status': 'error'})`. -/
def errStatusObj (msg : String) : String :=
  dumpsStrObj [("error", msg), ("status", "error")]

/-- `IssueTools._generate_issue_url`: prefer the readable ID, fall back to
the internal ID; base URL from configuration, with the hard-coded default
when unset. -/
def generateIssueUrl (cfgUrl : String) (issueId readableId : PyVal) : Option String :=
  if !(issueId.truthy || readableId.truthy) then Option.none
  else
    let baseUrl := if cfgUrl.isEmpty then "https://youtrack.gaijin.team" else cfgUrl
    if readableId.truthy then some (baseUrl ++ "/issue/" ++ pyStr readableId)
    else if issueId.truthy then some (baseUrl ++ "/issue/" ++ pyStr issueId)
    else Option.none

/-- The ID extraction of `create_issue` (lines 218-228): attribute access
when the response has an `id` attribute, dict lookups when it is a
mapping, else no IDs. -/
def extractIssueIds (issue : PyVal) : PyVal × PyVal :=
  if issue.hasAttr "id" then
    (pyGetattrD issue "id" .none,
     if issue.hasAttr "idReadable" then pyGetattrD issue "idReadable" .none else .none)
  else
    match issue with
    | .dict fs => (dictGet fs "id", dictGet fs "idReadable")
    | _ => (.none, .none)

/-- The normalization step of `_prepare_issue_response` (lines 115-127):
model dump, the mapping itself, or an attribute-scraped fallback. -/
def prepareBase (issue : PyVal) (summary : String) (description : Option String)
    (project : String) : PyVal :=
  if issue.hasAttr "model_dump" then issue.modelDump
  else
    match issue with
    | .dict fs => .dict fs
    | _ =>
        .dict [("id", pyGetattrD issue "id" .none),
               ("summary", pyGetattrD issue "summary" (.str summary)),
               ("description", pyGetattrD issue "description" (optStrToPy description)),
               ("project", .str project),
               ("$type", .str "Issue")]

/-- `IssueTools._prepare_issue_response`: normalize the created issue to a
mapping and append `url` / `status: success` when a truthy URL was
generated and the normalized value is a mapping. -/
def prepareIssueResponse (issue : PyVal) (issueUrl : Option String)
    (summary : String) (description : Option String) (project : String) : PyVal :=
  let result := prepareBase issue summary description project
  match issueUrl, result with
  | some u, .dict fs =>
      if u.isEmpty then result
      else .dict (assocSet (assocSet fs "url" (.str u)) "status" (.str "success"))
  | _, _ => result

/-- The error message of `create_issue`'s API-error handler (lines
237-247): append the decoded response body content when the exception
carries a response. -/
def createErrMsg (e : PyExn) : String :=
  match e.response with
  | some content => e.msg ++ " - " ++ content
  | Option.none => e.msg

/-- The `additional_fields` value passed on to the create call: the
caller's custom fields when truthy, else the empty dict. -/
def additionalFieldsOf : Option PyVal → PyVal
  | some cf => if cf.truthy then cf else .dict []
  | Option.none => .dict []

/-- The response shaping of `create_issue`'s success path (lines 213-236):
error-dict passthrough, ID extraction, URL generation and response
preparation, serialized; a serialization fault goes to the same handler
as an API fault. -/
def createIssueFinish (env : Env) (project summaryS : String)
    (description : Option String) (issue : PyVal) : Except PyExn String :=
  let shaped : Except PyExn String :=
    let ids := extractIssueIds issue
    let issueUrl := generateIssueUrl env.url ids.1 ids.2
    let result := prepareIssueResponse issue issueUrl summaryS description project
    match dumpsInd 0 result with
    | .ok s => .ok s
    | .error e => .ok (errStatusObj (createErrMsg e))
  match issue with
  | .dict fs =>
      if (dictGet fs "error").truthy then
        match dumpsVal (.dict fs) with
        | .ok s => .ok s
        | .error e => .ok (errStatusObj (createErrMsg e))
      else shaped
  | _ => shaped

/-- The creation half of `create_issue` (lines 199-247), entered after
validation and project resolution with the resolved `project_id` and the
remote calls already performed: one create call, then the response
shaping, with the API-error handler wrapped around all of it.  Every
branch returns right after the single create call, so the call trace is
branch-independent. -/
def createIssueCreate (env : Env) (project summaryS : String)
    (description : Option String) (customFields : Option PyVal)
    (projectId : PyVal) (t0 : List Call) : TRes :=
  let c := Call.apiCreateIssue projectId summaryS description
      (additionalFieldsOf customFields)
  (match env.api t0 c with
   | .error e => .ok (errStatusObj (createErrMsg e))
   | .ok issue => createIssueFinish env project summaryS description issue,
   t0 ++ [c])

/-- `IssueTools.create_issue`: argument validation, short-name-to-ID
resolution via the projects API for names not shaped like internal IDs
(not starting with `0-`), then the creation half.  The `summary` argument
is optional to cover callers passing `None` through the protocol layer. -/
def createIssue (env : Env) (project : String) (summary description : Option String)
    (customFields : Option PyVal) : TRes :=
  if project.isEmpty then
    (.ok (errStatusObj "Project is required"), [])
  else if !(optTruthy summary) then
    (.ok (errStatusObj "Summary is required"), [])
  else
    let summaryS := summary.getD ""
    if !(pyStartsWith project "0-") then
      let c := Call.apiGetProjectByName project
      match env.api [] c with
      | .error e =>
          (.ok (errStatusObj ("Error finding project: " ++ e.msg)), [c])
      | .ok pobj =>
          if pobj.truthy then
            -- the log line evaluates `project_obj.name` and `project_obj.id`
            match pyGetattr pobj "name" with
            | .error e => (.ok (errStatusObj ("Error finding project: " ++ e.msg)), [c])
            | .ok _ =>
                match pyGetattr pobj "id" with
                | .error e => (.ok (errStatusObj ("Error finding project: " ++ e.msg)), [c])
                | .ok pid =>
                    createIssueCreate env project summaryS description customFields pid [c]
          else (.ok (errStatusObj ("Project not found: " ++ project)), [c])
    else
      createIssueCreate env project summaryS description customFields (.str project) []

/-- The per-record normalization of `get_projects`: model dump when
available, else the record as-is. -/
def convProject (p : PyVal) : PyVal :=
  if p.hasAttr "model_dump" then p.modelDump else p

/-- `ProjectTools.get_projects`: one list call, per-record normalization,
dump; any fault (including on a non-iterable response) becomes the error
envelope. -/
def getProjects (env : Env) (includeArchived : Bool) : TRes :=
  let c := Call.apiGetProjects includeArchived
  match env.api [] c with
  | .error e => (.ok (dumpsStrObj [("error", e.msg)]), [c])
  | .ok projects =>
      match pyIter projects with
      | .error e => (.ok (dumpsStrObj [("error", e.msg)]), [c])
      | .ok xs =>
          match dumpsInd 0 (.list (xs.map convProject)) with
          | .ok s => (.ok s, [c])
          | .error e => (.ok (dumpsStrObj [("error", e.msg)]), [c])

/-- `ProjectTools.get_project`: identifier from either parameter, one GET,
model-or-dict normalization, dump; error envelope on fault. -/
def getProject (env : Env) (projectId projectP : Option String) : TRes :=
  let identO := pyOrStr projectId projectP
  if !(optTruthy identO) then
    (.ok (dumpsStrObj [("error", "Project ID is required")]), [])
  else
    let pid := identO.getD ""
    let c := Call.apiGetProject pid
    match env.api [] c with
    | .error e => (.ok (dumpsStrObj [("error", e.msg)]), [c])
    | .ok p =>
        match dumpsInd 0 (if p.hasAttr "model_dump" then p.modelDump else p) with
        | .ok s => (.ok s, [c])
        | .error e => (.ok (dumpsStrObj [("error", e.msg)]), [c])

/-- `ProjectTools.get_project_by_name`: one lookup call; a truthy result
is normalized and dumped, a falsy one becomes the quoted not-found
envelope; error envelope on fault. -/
def getProjectByNameTool (env : Env) (projectName : String) : TRes :=
  if projectName.isEmpty then
    (.ok (dumpsStrObj [("error", "Project name is required")]), [])
  else
    let c := Call.apiGetProjectByName projectName
    match env.api [] c with
    | .error e => (.ok (dumpsStrObj [("error", e.msg)]), [c])
    | .ok p =>
        if p.truthy then
          match dumpsInd 0 (if p.hasAttr "model_dump" then p.modelDump else p) with
          | .ok s => (.ok s, [c])
          | .error e => (.ok (dumpsStrObj [("error", e.msg)]), [c])
        else
          (.ok (dumpsStrObj [("error", "Project '" ++ projectName ++ "' not found")]), [c])

/-- The name-resolution fallback of `get_project_issues` (lines 154-163):
resolve the identifier as a name, retry the issues lookup with the
resolved project's `id` attribute, or report the project as not found. -/
def getProjectIssuesFallback (env : Env) (pid : String) (limit : Int)
    (t0 : List Call) : TRes :=
  let c2 := Call.apiGetProjectByName pid
  match env.api t0 c2 with
  | .error e => (.ok (dumpsStrObj [("error", e.msg)]), t0 ++ [c2])
  | .ok pobj =>
      if pobj.truthy then
        match pyGetattr pobj "id" with
        | .error e => (.ok (dumpsStrObj [("error", e.msg)]), t0 ++ [c2])
        | .ok pidv =>
            let c3 := Call.apiGetProjectIssues pidv limit
            match env.api (t0 ++ [c2]) c3 with
            | .error e => (.ok (dumpsStrObj [("error", e.msg)]), t0 ++ [c2, c3])
            | .ok issues =>
                match dumpsInd 0 issues with
                | .ok s => (.ok s, t0 ++ [c2, c3])
                | .error e => (.ok (dumpsStrObj [("error", e.msg)]), t0 ++ [c2, c3])
      else
        (.ok (dumpsStrObj [("error", "Project not found: " ++ pid)]), t0 ++ [c2])

/-- `ProjectTools.get_project_issues`: direct ID lookup first; a truthy
result is dumped, a falsy one falls through to name resolution; a fault
whose message does not start with `'Project not found'` is reported
immediately, while a not-found-shaped fault also falls through to name
resolution. -/
def getProjectIssues (env : Env) (projectId projectP : Option String)
    (limit : Int) : TRes :=
  let identO := pyOrStr projectId projectP
  if !(optTruthy identO) then
    (.ok (dumpsStrObj [("error", "Project ID is required")]), [])
  else
    let pid := identO.getD ""
    let c1 := Call.apiGetProjectIssues (.str pid) limit
    match env.api [] c1 with
    | .error e =>
        if !(pyStartsWith e.msg "Project not found") then
          (.ok (dumpsStrObj [("error", e.msg)]), [c1])
        else
          getProjectIssuesFallback env pid limit [c1]
    | .ok issues =>
        if issues.truthy then
          match dumpsInd 0 issues with
          | .ok s => (.ok s, [c1])
          | .error e =>
              -- a dump failure is caught by the same handler as the lookup
              if !(pyStartsWith e.msg "Project not found") then
                (.ok (dumpsStrObj [("error", e.msg)]), [c1])
              else
                getProjectIssuesFallback env pid limit [c1]
        else
          getProjectIssuesFallback env pid limit [c1]

/-- The per-entry conversion of `get_custom_fields`: model dump, the
mapping itself, or string coercion as last resort. -/
def convField (f : PyVal) : PyVal :=
  if f.hasAttr "model_dump" then f.modelDump
  else
    match f with
    | .dict fs => .dict fs
    | _ => .str (pyStr f)

/-- `ProjectTools.get_custom_fields`: one field-definitions call, then
shape-tolerant processing: `None` becomes an empty list, a mapping is
dumped as-is, an iterable is converted entry by entry, and a failure to
iterate or to dump the converted list degrades to the
`{'custom_fields': str(fields)}` wrapper; error envelope on fault. -/
def getCustomFields (env : Env) (projectId projectP : Option String) : TRes :=
  let identO := pyOrStr projectId projectP
  if !(optTruthy identO) then
    (.ok (dumpsStrObj [("error", "Project ID is required")]), [])
  else
    let pid := identO.getD ""
    let c := Call.apiGetCustomFields pid
    match env.api [] c with
    | .error e => (.ok (dumpsStrObj [("error", e.msg)]), [c])
    | .ok fields =>
        match fields with
        | .none => (.ok "[]", [c])
        | .dict fs =>
            match dumpsInd 0 (.dict fs) with
            | .ok s => (.ok s, [c])
            | .error e => (.ok (dumpsStrObj [("error", e.msg)]), [c])
        | v =>
            match pyIter v with
            | .error _ => (.ok (dumpsStrObj [("custom_fields", pyStr v)]), [c])
            | .ok xs =>
                match dumpsInd 0 (.list (xs.map convField)) with
                | .ok s => (.ok s, [c])
                | .error _ => (.ok (dumpsStrObj [("custom_fields", pyStr v)]), [c])

/-- `ProjectTools.get_project_detailed`: one detailed-info call,
model-or-dict normalization, dump; error envelope on fault. -/
def getProjectDetailed (env : Env) (projectId projectP : Option String) : TRes :=
  let identO := pyOrStr projectId projectP
  if !(optTruthy identO) then
    (.ok (dumpsStrObj [("error", "Project ID is required")]), [])
  else
    let pid := identO.getD ""
    let c := Call.apiGetProjectDetailed pid
    match env.api [] c with
    | .error e => (.ok (dumpsStrObj [("error", e.msg)]), [c])
    | .ok info =>
        match dumpsInd 0 (if info.hasAttr "model_dump" then info.modelDump else info) with
        | .ok s => (.ok s, [c])
        | .error e => (.ok (dumpsStrObj [("error", e.msg)]), [c])

/-- `ProjectTools.get_project_fields`: one issue-analysis call, dumped
directly; error envelope on fault. -/
def getProjectFieldsTool (env : Env) (projectId projectP : Option String) : TRes :=
  let identO := pyOrStr projectId projectP
  if !(optTruthy identO) then
    (.ok (dumpsStrObj [("error", "Project ID is required")]), [])
  else
    let pid := identO.getD ""
    let c := Call.apiGetProjectFieldsFromIssues pid
    match env.api [] c with
    | .error e => (.ok (dumpsStrObj [("error", e.msg)]), [c])
    | .ok info =>
        match dumpsInd 0 info with
        | .ok s => (.ok s, [c])
        | .error e => (.ok (dumpsStrObj [("error", e.msg)]), [c])

/-- `ProjectTools.create_project`: three required-argument guards in
order, one create call, model-or-dict normalization, dump; error envelope
on fault. -/
def createProject (env : Env) (name shortName leadId : String)
    (description : Option String) : TRes :=
  if name.isEmpty then
    (.ok (dumpsStrObj [("error", "Project name is required")]), [])
  else if shortName.isEmpty then
    (.ok (dumpsStrObj [("error", "Project short name is required")]), [])
  else if leadId.isEmpty then
    (.ok (dumpsStrObj [("error", "Project leader ID is required")]), [])
  else
    let c := Call.apiCreateProject name shortName leadId description
    match env.api [] c with
    | .error e => (.ok (dumpsStrObj [("error", e.msg)]), [c])
    | .ok p =>
        match dumpsInd 0 (if p.hasAttr "model_dump" then p.modelDump else p) with
        | .ok s => (.ok s, [c])
        | .error e => (.ok (dumpsStrObj [("error", e.msg)]), [c])

/-- The sparse patch body of `update_project`: exactly the keys of the
caller-supplied optional arguments, in the source's insertion order, with
`lead_id` wrapped as `{'leader': {'id': ...}}` and `short_name` renamed to
`shortName`. -/
def buildPatch (name description : Option String) (archived : Option Bool)
    (leadId shortName : Option String) : List (String × PyVal) :=
  (match name with | some n => [("name", PyVal.str n)] | Option.none => []) ++
  (match description with | some d => [("description", PyVal.str d)] | Option.none => []) ++
  (match archived with | some a => [("archived", PyVal.bool a)] | Option.none => []) ++
  (match leadId with | some l => [("leader", PyVal.dict [("id", PyVal.str l)])] | Option.none => []) ++
  (match shortName with | some s => [("shortName", PyVal.str s)] | Option.none => [])

/-- The re-fetch half of `update_project` (lines 409-419): fetch the
project again and return the refreshed object, or the
`'Project was updated but could not retrieve the result'` envelope when
the re-fetch (including its log line's attribute access or its
serialization) fails. -/
def updateProjectRefetch (env : Env) (pid : String) (t2 : List Call) : TRes :=
  let c3 := Call.apiGetProject pid
  match env.api t2 c3 with
  | .error e =>
      (.ok (dumpsStrObj
          [("error",
            "Project was updated but could not retrieve the result: "
              ++ e.msg)]), t2 ++ [c3])
  | .ok updated =>
      -- the log line evaluates `updated_project.name`
      match pyGetattr updated "name" with
      | .error e =>
          (.ok (dumpsStrObj
              [("error",
                "Project was updated but could not retrieve the result: "
                  ++ e.msg)]), t2 ++ [c3])
      | .ok _ =>
          match dumpsInd 0
              (if updated.hasAttr "model_dump" then updated.modelDump
               else updated) with
          | .ok s => (.ok s, t2 ++ [c3])
          | .error e =>
              (.ok (dumpsStrObj
                  [("error",
                    "Project was updated but could not retrieve the result: "
                      ++ e.msg)]), t2 ++ [c3])

/-- `ProjectTools.update_project`: fetch the existing project, build the
sparse patch; with an empty patch return the existing project unchanged;
otherwise POST the patch (a patch fault is swallowed), re-fetch and return
the refreshed project.  Faults of the initial fetch surface as `'Could not
update project: ...'`, faults of the re-fetch as `'Project was updated but
could not retrieve the result: ...'`. -/
def updateProject (env : Env) (projectId projectP name description : Option String)
    (archived : Option Bool) (leadId shortName : Option String) : TRes :=
  let identO := pyOrStr projectId projectP
  if !(optTruthy identO) then
    (.ok (dumpsStrObj [("error", "Project ID is required")]), [])
  else
    let pid := identO.getD ""
    let c1 := Call.apiGetProject pid
    match env.api [] c1 with
    | .error e =>
        (.ok (dumpsStrObj [("error", "Could not update project: " ++ e.msg)]), [c1])
    | .ok existing =>
        -- the log line evaluates `existing_project.name` and `existing_project.id`
        match pyGetattr existing "name" with
        | .error e =>
            (.ok (dumpsStrObj [("error", "Could not update project: " ++ e.msg)]), [c1])
        | .ok _ =>
            match pyGetattr existing "id" with
            | .error e =>
                (.ok (dumpsStrObj [("error", "Could not update project: " ++ e.msg)]), [c1])
            | .ok _ =>
                let data := buildPatch name description archived leadId shortName
                if data.isEmpty then
                  match dumpsInd 0
                      (if existing.hasAttr "model_dump" then existing.modelDump
                       else existing) with
                  | .ok s => (.ok s, [c1])
                  | .error e =>
                      (.ok (dumpsStrObj
                          [("error", "Could not update project: " ++ e.msg)]), [c1])
                else
                  let c2 := Call.post ("admin/projects/" ++ pid) (.dict data)
                  -- the patch call's outcome is ignored either way: a fault
                  -- is logged and swallowed, a successful response is unused
                  match env.api [c1] c2 with
                  | .error _ => updateProjectRefetch env pid [c1, c2]
                  | .ok _ => updateProjectRefetch env pid [c1, c2]

/-- Helper: a non-empty string is not `isEmpty`. -/
theorem isEmpty_false_of_ne {s : String} (h : s ≠ "") : s.isEmpty = false := by
  rw [Bool.eq_false_iff]
  intro he
  exact h ((String.isEmpty_iff s).mp he)

/-- C3: for every call to `create_issue` with a non-empty project argument
and an empty summary (`None` or the empty string), the result is exactly
the JSON string `{"error": "Summary is required", "status": "error"}` and
no remote call of any kind is performed. -/
theorem create_issue_missing_summary (env : Env) (project : String)
    (summary description : Option String) (customFields : Option PyVal)
    (hp : project ≠ "") (hs : summary = Option.none ∨ summary = some "") :
    createIssue env project summary description customFields =
      (.ok "\x7b\"error\": \"Summary is required\", \"status\": \"error\"\x7d", []) := by
  have hpe : project.isEmpty = false := isEmpty_false_of_ne hp
  have hst : optTruthy summary = false := by
    rcases hs with h | h
    · simp [h, optTruthy]
    · simp [h, optTruthy]
      rfl
  simp only [createIssue, hpe, hst, Bool.false_eq_true, if_false, Bool.not_false, if_true]
  rfl

/-- Witness for C3 at a concrete environment and arguments. -/
theorem create_issue_missing_summary_witness :
    createIssue ⟨fun _ _ => .error ⟨"boom", Option.none⟩, ""⟩ "DEMO"
        (some "") Option.none Option.none =
      (.ok "\x7b\"error\": \"Summary is required\", \"status\": \"error\"\x7d", []) :=
  create_issue_missing_summary _ "DEMO" (some "") Option.none Option.none
    (by decide) (Or.inr rfl)

/-- Helper: under `create_issue`'s name-resolution preconditions, the call
trace is either empty (a validation guard fired) or starts with the
name-resolution call. -/
theorem createIssue_trace_shape (env : Env) (project : String)
    (summary description : Option String) (customFields : Option PyVal)
    (hpe : project.isEmpty = false) (h0 : pyStartsWith project "0-" = false) :
    (createIssue env project summary description customFields).2 = [] ∨
    ∃ rest, (createIssue env project summary description customFields).2 =
      Call.apiGetProjectByName project :: rest := by
  simp only [createIssue, createIssueCreate, hpe, h0, Bool.false_eq_true, if_false,
    Bool.not_false, if_true]
  cases hts : optTruthy summary
  · simp
  · simp only [Bool.not_true, Bool.false_eq_true, if_false]
    repeat
      first
        | exact Or.inl rfl
        | exact Or.inr ⟨_, rfl⟩
        | split

/-- C2: for every call to `create_issue` whose project argument is
non-empty and does not start with `'0-'`, any create call in the trace is
preceded by the `get_project_by_name` resolution call (the trace starts
with it), and when the resolution yields no project the result is exactly
the JSON string `{"error": "Project not found: <project>", "status":
"error"}` with the create call never made. -/
theorem create_issue_resolves_before_create (env : Env) (project : String)
    (summary description : Option String) (customFields : Option PyVal)
    (hp : project ≠ "") (h0 : pyStartsWith project "0-" = false) :
    ((∃ pid s d f, Call.apiCreateIssue pid s d f ∈
        (createIssue env project summary description customFields).2) →
      (createIssue env project summary description customFields).2.head? =
        some (Call.apiGetProjectByName project)) ∧
    (∀ v, optTruthy summary = true →
        env.api [] (Call.apiGetProjectByName project) = .ok v →
        v.truthy = false →
        createIssue env project summary description customFields =
          (.ok (dumpsStrObj [("error", "Project not found: " ++ project),
                             ("status", "error")]),
           [Call.apiGetProjectByName project])) := by
  have hpe : project.isEmpty = false := isEmpty_false_of_ne hp
  constructor
  · intro hex
    rcases createIssue_trace_shape env project summary description customFields hpe h0
      with hnil | ⟨rest, hcons⟩
    · exfalso
      obtain ⟨pid, s, d, f, hmem⟩ := hex
      rw [hnil] at hmem
      exact List.not_mem_nil _ hmem
    · rw [hcons]
      rfl
  · intro v hts henv htr
    simp only [createIssue, hpe, hts, h0, Bool.false_eq_true, if_false, Bool.not_true,
      if_true, Bool.not_false]
    rw [henv]
    simp only [htr, Bool.false_eq_true, if_false]
    rfl

/-- Witness for C2: with no project matching `"DEMO"`, the result is the
literal not-found JSON envelope and only the resolution call was made. -/
theorem create_issue_resolves_before_create_witness :
    createIssue ⟨fun _ _ => .ok (.list []), ""⟩ "DEMO" (some "Bug") Option.none
        Option.none =
      (.ok "\x7b\"error\": \"Project not found: DEMO\", \"status\": \"error\"\x7d",
       [Call.apiGetProjectByName "DEMO"]) := by
  have h := (create_issue_resolves_before_create ⟨fun _ _ => .ok (.list []), ""⟩
      "DEMO" (some "Bug") Option.none Option.none (by decide) (by decide)).2
      (.list []) rfl rfl rfl
  rw [h]
  rfl

/-- Helper: the fallback of `get_project_issues` always performs the
name-resolution call right after the calls already made, followed by at
most one further issues lookup. -/
theorem getProjectIssuesFallback_trace_shape (env : Env) (pid : String)
    (limit : Int) (t0 : List Call) :
    (getProjectIssuesFallback env pid limit t0).2 =
        t0 ++ [Call.apiGetProjectByName pid] ∨
    ∃ pidv, (getProjectIssuesFallback env pid limit t0).2 =
        t0 ++ [Call.apiGetProjectByName pid, Call.apiGetProjectIssues pidv limit] := by
  simp only [getProjectIssuesFallback]
  repeat
    first
      | exact Or.inl rfl
      | exact Or.inr ⟨_, rfl⟩
      | split

/-- C8: in `get_project_issues` with a non-empty identifier, a fault of
the direct ID lookup whose message does not start with `'Project not
found'` is reported immediately as `{"error": <message>}` with no name
resolution and no second issues lookup, while a not-found-shaped fault
falls through to the name-resolution fallback (the resolution call is the
next call made). -/
theorem get_project_issues_fallback_condition (env : Env) (pid : String)
    (limit : Int) (hp : pid ≠ "") :
    (∀ e, env.api [] (Call.apiGetProjectIssues (.str pid) limit) = .error e →
      pyStartsWith e.msg "Project not found" = false →
      getProjectIssues env (some pid) Option.none limit =
        (.ok (dumpsStrObj [("error", e.msg)]),
         [Call.apiGetProjectIssues (.str pid) limit])) ∧
    (∀ e, env.api [] (Call.apiGetProjectIssues (.str pid) limit) = .error e →
      pyStartsWith e.msg "Project not found" = true →
      getProjectIssues env (some pid) Option.none limit =
        getProjectIssuesFallback env pid limit
          [Call.apiGetProjectIssues (.str pid) limit] ∧
      (getProjectIssues env (some pid) Option.none limit).2.take 2 =
        [Call.apiGetProjectIssues (.str pid) limit,
         Call.apiGetProjectByName pid]) := by
  have hpe : pid.isEmpty = false := isEmpty_false_of_ne hp
  have hid : pyOrStr (some pid) Option.none = some pid := by
    simp [pyOrStr, hpe]
  constructor
  · intro e henv hmsg
    simp only [getProjectIssues, hid, optTruthy, hpe, Bool.not_false, if_true,
      Option.getD_some]
    rw [henv]
    simp [hmsg]
  · intro e henv hmsg
    have hred : getProjectIssues env (some pid) Option.none limit =
        getProjectIssuesFallback env pid limit
          [Call.apiGetProjectIssues (.str pid) limit] := by
      simp only [getProjectIssues, hid, optTruthy, hpe, Bool.not_false, if_true,
        Option.getD_some]
      rw [henv]
      simp [hmsg]
    refine ⟨hred, ?_⟩
    rw [hred]
    rcases getProjectIssuesFallback_trace_shape env pid limit
        [Call.apiGetProjectIssues (.str pid) limit] with h | ⟨pidv, h⟩
    · rw [h]
      rfl
    · rw [h]
      rfl

/-- Witness for C8: a generic fault (`"network down"`) is reported
immediately, and a not-found-shaped fault makes the resolution call the
second call of the trace. -/
theorem get_project_issues_fallback_condition_witness :
    (getProjectIssues ⟨fun _ _ => .error ⟨"network down", Option.none⟩, ""⟩
        (some "0-1") Option.none 50 =
      (.ok "\x7b\"error\": \"network down\"\x7d",
       [Call.apiGetProjectIssues (.str "0-1") 50])) ∧
    ((getProjectIssues ⟨fun _ _ => .error ⟨"Project not found: 0-1", Option.none⟩, ""⟩
        (some "0-1") Option.none 50).2.take 2 =
      [Call.apiGetProjectIssues (.str "0-1") 50,
       Call.apiGetProjectByName "0-1"]) := by
  constructor
  · have h := (get_project_issues_fallback_condition
        ⟨fun _ _ => .error ⟨"network down", Option.none⟩, ""⟩ "0-1" 50
        (by decide)).1 ⟨"network down", Option.none⟩ rfl (by decide)
    rw [h]
    rfl
  · exact ((get_project_issues_fallback_condition
        ⟨fun _ _ => .error ⟨"Project not found: 0-1", Option.none⟩, ""⟩ "0-1" 50
        (by decide)).2 ⟨"Project not found: 0-1", Option.none⟩ rfl (by decide)).2

/-- C10: in `get_project_issues`, a successful direct lookup with a falsy
issue list is not returned: the operation proceeds to name resolution and
returns either the issues fetched with the resolved project's ID or the
`Project not found` error when resolution finds no project. -/
theorem get_project_issues_empty_falls_back (env : Env) (pid : String)
    (limit : Int) (hp : pid ≠ "") (v : PyVal)
    (hok : env.api [] (Call.apiGetProjectIssues (.str pid) limit) = .ok v)
    (hfalsy : v.truthy = false) :
    getProjectIssues env (some pid) Option.none limit =
      getProjectIssuesFallback env pid limit
        [Call.apiGetProjectIssues (.str pid) limit] ∧
    (∀ p pidv issues s,
      env.api [Call.apiGetProjectIssues (.str pid) limit]
          (Call.apiGetProjectByName pid) = .ok p →
      p.truthy = true →
      pyGetattr p "id" = .ok pidv →
      env.api [Call.apiGetProjectIssues (.str pid) limit,
               Call.apiGetProjectByName pid]
          (Call.apiGetProjectIssues pidv limit) = .ok issues →
      dumpsInd 0 issues = .ok s →
      getProjectIssues env (some pid) Option.none limit =
        (.ok s,
         [Call.apiGetProjectIssues (.str pid) limit,
          Call.apiGetProjectByName pid,
          Call.apiGetProjectIssues pidv limit])) ∧
    (∀ p,
      env.api [Call.apiGetProjectIssues (.str pid) limit]
          (Call.apiGetProjectByName pid) = .ok p →
      p.truthy = false →
      getProjectIssues env (some pid) Option.none limit =
        (.ok (dumpsStrObj [("error", "Project not found: " ++ pid)]),
         [Call.apiGetProjectIssues (.str pid) limit,
          Call.apiGetProjectByName pid])) := by
  have hpe : pid.isEmpty = false := isEmpty_false_of_ne hp
  have hid : pyOrStr (some pid) Option.none = some pid := by
    simp [pyOrStr, hpe]
  have hred : getProjectIssues env (some pid) Option.none limit =
      getProjectIssuesFallback env pid limit
        [Call.apiGetProjectIssues (.str pid) limit] := by
    simp only [getProjectIssues, hid, optTruthy, hpe, Bool.not_false, if_true,
      Option.getD_some]
    rw [hok]
    simp [hfalsy]
  refine ⟨hred, ?_, ?_⟩
  · intro p pidv issues s hbn hptr hattr hiss hdump
    rw [hred]
    simp only [getProjectIssuesFallback]
    rw [hbn]
    simp only [hptr, if_true, List.singleton_append]
    rw [hattr]
    simp [hiss, hdump]
  · intro p hbn hptr
    rw [hred]
    simp only [getProjectIssuesFallback]
    rw [hbn]
    simp [hptr]

/-- A concrete oracle for the C10 witness: the direct lookup yields an
empty list, name resolution yields a model with ID `0-7`, and the retried
lookup yields a one-element issue list. -/
def envEmptyThenResolve : Env :=
  ⟨fun hist _ =>
     match hist.length with
     | 0 => .ok (.list [])
     | 1 => .ok (.obj true [("id", .str "0-7")] "Project")
     | _ => .ok (.list [.str "I-1"]),
   ""⟩

/-- Witness for C10: the empty direct result is not returned; the issues
fetched with the resolved ID are. -/
theorem get_project_issues_empty_falls_back_witness :
    getProjectIssues envEmptyThenResolve (some "DEMO") Option.none 50 =
      (.ok "[\n  \"I-1\"\n]",
       [Call.apiGetProjectIssues (.str "DEMO") 50,
        Call.apiGetProjectByName "DEMO",
        Call.apiGetProjectIssues (.str "0-7") 50]) :=
  (get_project_issues_empty_falls_back envEmptyThenResolve "DEMO" 50 (by decide)
      (.list []) rfl rfl).2.1 (.obj true [("id", .str "0-7")] "Project")
      (.str "0-7") (.list [.str "I-1"]) "[\n  \"I-1\"\n]" rfl rfl rfl rfl rfl

/-- C6: `update_project` with a non-empty identifier and all five optional
arguments `None` performs exactly one remote call (the GET fetching the
existing project), issues no patch POST, and returns the existing project
unchanged as JSON (for a fetched Pydantic model exposing the `name` and
`id` attributes its log line reads and whose dump serializes). -/
theorem update_project_no_args_no_patch (env : Env) (pid : String)
    (attrs : List (String × PyVal)) (srep s : String)
    (hp : pid ≠ "")
    (henv : env.api [] (Call.apiGetProject pid) = .ok (.obj true attrs srep))
    (hname : (attrs.lookup "name").isSome)
    (hid : (attrs.lookup "id").isSome)
    (hdump : dumpsInd 0 (.dict attrs) = .ok s) :
    updateProject env (some pid) Option.none Option.none Option.none Option.none
        Option.none Option.none =
      (.ok s, [Call.apiGetProject pid]) := by
  have hpe : pid.isEmpty = false := isEmpty_false_of_ne hp
  have hor : pyOrStr (some pid) Option.none = some pid := by simp [pyOrStr, hpe]
  obtain ⟨nv, hnv⟩ := Option.isSome_iff_exists.mp hname
  obtain ⟨iv, hiv⟩ := Option.isSome_iff_exists.mp hid
  simp only [updateProject, hor, optTruthy, hpe, Bool.not_false, if_true,
    Option.getD_some]
  rw [henv]
  simp only [pyGetattr, hnv, hiv, buildPatch, List.append_nil, List.isEmpty_nil,
    if_true, PyVal.hasAttr, PyVal.modelDump, if_true, reduceIte]
  rw [hdump]
  rfl

/-- Witness for C6 at a concrete model project. -/
theorem update_project_no_args_no_patch_witness :
    updateProject
        ⟨fun _ _ => .ok (.obj true [("name", .str "P"), ("id", .str "0-1")] "Project"), ""⟩
        (some "0-1") Option.none Option.none Option.none Option.none
        Option.none Option.none =
      (.ok "\x7b\n  \"name\": \"P\",\n  \"id\": \"0-1\"\n\x7d",
       [Call.apiGetProject "0-1"]) :=
  update_project_no_args_no_patch _ "0-1"
    [("name", .str "P"), ("id", .str "0-1")] "Project" _
    (by decide) rfl rfl rfl rfl

/-- C7: in `update_project` with at least one optional argument supplied
(non-empty patch), the patch POST's outcome — exception or response — is
ignored: the operation always proceeds to re-fetch the project, returning
the refreshed object as a success payload when the re-fetch succeeds and
an error envelope only when the re-fetch itself fails; and the patch body
POSTed contains exactly the keys corresponding to the non-`None` optional
arguments. -/
theorem update_project_patch_best_effort (env : Env) (pid : String)
    (name description : Option String) (archived : Option Bool)
    (leadId shortName : Option String) (ex nv iv : PyVal)
    (hp : pid ≠ "")
    (hdata : buildPatch name description archived leadId shortName ≠ [])
    (henv1 : env.api [] (Call.apiGetProject pid) = .ok ex)
    (hn1 : pyGetattr ex "name" = .ok nv)
    (hi1 : pyGetattr ex "id" = .ok iv) :
    (updateProject env (some pid) Option.none name description archived
        leadId shortName =
      updateProjectRefetch env pid
        [Call.apiGetProject pid,
         Call.post ("admin/projects/" ++ pid)
           (.dict (buildPatch name description archived leadId shortName))]) ∧
    (∀ k, k ∈ (buildPatch name description archived leadId shortName).map Prod.fst ↔
      ((k = "name" ∧ name.isSome) ∨ (k = "description" ∧ description.isSome) ∨
       (k = "archived" ∧ archived.isSome) ∨ (k = "leader" ∧ leadId.isSome) ∨
       (k = "shortName" ∧ shortName.isSome))) ∧
    (∀ upd n2 s2,
      env.api [Call.apiGetProject pid,
               Call.post ("admin/projects/" ++ pid)
                 (.dict (buildPatch name description archived leadId shortName))]
          (Call.apiGetProject pid) = .ok upd →
      pyGetattr upd "name" = .ok n2 →
      dumpsInd 0 (if upd.hasAttr "model_dump" then upd.modelDump else upd) = .ok s2 →
      updateProject env (some pid) Option.none name description archived
          leadId shortName =
        (.ok s2,
         [Call.apiGetProject pid,
          Call.post ("admin/projects/" ++ pid)
            (.dict (buildPatch name description archived leadId shortName)),
          Call.apiGetProject pid])) ∧
    (∀ e,
      env.api [Call.apiGetProject pid,
               Call.post ("admin/projects/" ++ pid)
                 (.dict (buildPatch name description archived leadId shortName))]
          (Call.apiGetProject pid) = .error e →
      updateProject env (some pid) Option.none name description archived
          leadId shortName =
        (.ok (dumpsStrObj
            [("error",
              "Project was updated but could not retrieve the result: " ++ e.msg)]),
         [Call.apiGetProject pid,
          Call.post ("admin/projects/" ++ pid)
            (.dict (buildPatch name description archived leadId shortName)),
          Call.apiGetProject pid])) := by
  have hpe : pid.isEmpty = false := isEmpty_false_of_ne hp
  have hor : pyOrStr (some pid) Option.none = some pid := by simp [pyOrStr, hpe]
  have hde : (buildPatch name description archived leadId shortName).isEmpty = false := by
    rw [Bool.eq_false_iff]
    intro h
    exact hdata (List.isEmpty_iff.mp h)
  have hred : updateProject env (some pid) Option.none name description archived
      leadId shortName =
      updateProjectRefetch env pid
        [Call.apiGetProject pid,
         Call.post ("admin/projects/" ++ pid)
           (.dict (buildPatch name description archived leadId shortName))] := by
    simp only [updateProject, hor, optTruthy, hpe, Bool.not_false, if_true,
      Option.getD_some]
    rw [henv1]
    simp only [hn1, hi1, hde, Bool.false_eq_true, if_false]
    cases env.api [Call.apiGetProject pid]
        (Call.post ("admin/projects/" ++ pid)
          (.dict (buildPatch name description archived leadId shortName))) <;> rfl
  refine ⟨hred, ?_, ?_, ?_⟩
  · intro k
    rcases name with _ | n <;> rcases description with _ | d <;>
      rcases archived with _ | a <;> rcases leadId with _ | l <;>
      rcases shortName with _ | sn <;> simp [buildPatch]
  · intro upd n2 s2 henv3 hn2 hd2
    rw [hred]
    simp only [updateProjectRefetch]
    rw [henv3]
    simp only [hn2, hd2]
    rfl
  · intro e henv3
    rw [hred]
    simp only [updateProjectRefetch]
    rw [henv3]
    rfl

/-- A concrete oracle for the C7 witness: the initial fetch succeeds, the
patch POST raises, and the re-fetch returns the renamed project. -/
def envPatchRaises : Env :=
  ⟨fun hist _ =>
     match hist.length with
     | 0 => .ok (.obj true [("name", .str "Old"), ("id", .str "0-1")] "Project")
     | 1 => .error ⟨"patch failed", Option.none⟩
     | _ => .ok (.obj true [("name", .str "New"), ("id", .str "0-1")] "Project"),
   ""⟩

/-- Witness for C7: the raised patch POST is swallowed and the refreshed
project comes back as a success payload. -/
theorem update_project_patch_best_effort_witness :
    updateProject envPatchRaises (some "0-1") Option.none (some "New")
        Option.none Option.none Option.none Option.none =
      (.ok "\x7b\n  \"name\": \"New\",\n  \"id\": \"0-1\"\n\x7d",
       [Call.apiGetProject "0-1",
        Call.post "admin/projects/0-1" (.dict [("name", .str "New")]),
        Call.apiGetProject "0-1"]) := by
  have h := (update_project_patch_best_effort envPatchRaises "0-1" (some "New")
      Option.none Option.none Option.none Option.none
      (.obj true [("name", .str "Old"), ("id", .str "0-1")] "Project")
      (.str "Old") (.str "0-1") (by decide) (by simp [buildPatch]) rfl rfl rfl).2.2.1
      (.obj true [("name", .str "New"), ("id", .str "0-1")] "Project")
      (.str "New") "\x7b\n  \"name\": \"New\",\n  \"id\": \"0-1\"\n\x7d" rfl rfl rfl
  exact h

/-- C9: `get_custom_fields` with a non-empty identifier is total over the
shape of the underlying field-list value: it always returns a JSON string
(never an uncaught exception), with `None` becoming the empty list, a
mapping dumped as-is, a sequence converted entry by entry (model dump,
mapping, or string coercion as last resort), and a non-iterable value
wrapped as `{"custom_fields": <string form>}`. -/
theorem get_custom_fields_total (env : Env) (pid : String) (hp : pid ≠ "") :
    (∃ s, (getCustomFields env (some pid) Option.none).1 = .ok s) ∧
    (env.api [] (Call.apiGetCustomFields pid) = .ok .none →
      getCustomFields env (some pid) Option.none =
        (.ok "[]", [Call.apiGetCustomFields pid])) ∧
    (∀ fs s, env.api [] (Call.apiGetCustomFields pid) = .ok (.dict fs) →
      dumpsInd 0 (.dict fs) = .ok s →
      getCustomFields env (some pid) Option.none =
        (.ok s, [Call.apiGetCustomFields pid])) ∧
    (∀ xs s, env.api [] (Call.apiGetCustomFields pid) = .ok (.list xs) →
      dumpsInd 0 (.list (xs.map convField)) = .ok s →
      getCustomFields env (some pid) Option.none =
        (.ok s, [Call.apiGetCustomFields pid])) ∧
    (∀ v e, env.api [] (Call.apiGetCustomFields pid) = .ok v →
      v ≠ .none → pyIter v = .error e →
      getCustomFields env (some pid) Option.none =
        (.ok (dumpsStrObj [("custom_fields", pyStr v)]),
         [Call.apiGetCustomFields pid])) := by
  have hpe : pid.isEmpty = false := isEmpty_false_of_ne hp
  have hor : pyOrStr (some pid) Option.none = some pid := by simp [pyOrStr, hpe]
  refine ⟨?_, ?_, ?_, ?_, ?_⟩
  · simp only [getCustomFields, hor, optTruthy, hpe, Bool.not_false, if_true,
      Option.getD_some]
    repeat
      first
        | exact ⟨_, rfl⟩
        | split
  · intro henv
    simp only [getCustomFields, hor, optTruthy, hpe, Bool.not_false, if_true,
      Option.getD_some]
    rw [henv]
    rfl
  · intro fs s henv hd
    simp only [getCustomFields, hor, optTruthy, hpe, Bool.not_false, if_true,
      Option.getD_some]
    rw [henv]
    simp only []
    rw [hd]
    rfl
  · intro xs s henv hd
    simp only [getCustomFields, hor, optTruthy, hpe, Bool.not_false, if_true,
      Option.getD_some]
    rw [henv]
    simp only [pyIter]
    rw [hd]
    rfl
  · intro v e henv hv herr
    cases v with
    | none => exact absurd rfl hv
    | list xs => simp [pyIter] at herr
    | str s => simp [pyIter] at herr
    | dict fs => simp [pyIter] at herr
    | bool b =>
        simp only [getCustomFields, hor, optTruthy, hpe, Bool.not_false, if_true,
          Option.getD_some]
        rw [henv]
        simp only []
        rw [herr]
        rfl
    | int n =>
        simp only [getCustomFields, hor, optTruthy, hpe, Bool.not_false, if_true,
          Option.getD_some]
        rw [henv]
        simp only []
        rw [herr]
        rfl
    | obj d attrs r =>
        simp only [getCustomFields, hor, optTruthy, hpe, Bool.not_false, if_true,
          Option.getD_some]
        rw [henv]
        simp only []
        rw [herr]
        rfl

/-- Witness for C9: a non-iterable (integer) field-list value degrades to
the string-form wrapper. -/
theorem get_custom_fields_total_witness :
    getCustomFields ⟨fun _ _ => .ok (.int 5), ""⟩ (some "0-1") Option.none =
      (.ok "\x7b\"custom_fields\": \"5\"\x7d", [Call.apiGetCustomFields "0-1"]) := by
  have h := (get_custom_fields_total ⟨fun _ _ => .ok (.int 5), ""⟩ "0-1"
      (by decide)).2.2.2.2 (.int 5) ⟨"object is not iterable", Option.none⟩
      rfl (fun h => nomatch h) rfl
  rw [h]
  rfl

/-- C5 counterexample: `get_issue` is not a pure pass-through.  For the
minimal remote response `{"$type": "Issue"}` the produced JSON contains a
`summary` field the remote API never returned. -/
theorem get_issue_pass_through_counterexample :
    getIssue ⟨fun _ _ => .ok (.dict [("$type", .str "Issue")]), ""⟩ "X-1" =
      (.ok "\x7b\n  \"$type\": \"Issue\",\n  \"summary\": \"Issue X-1\"\n\x7d",
       [Call.get ("issues/X-1?fields=" ++ issueFieldList) []]) ∧
    dumpsInd 0 (.dict [("$type", .str "Issue")]) =
      .ok "\x7b\n  \"$type\": \"Issue\"\n\x7d" ∧
    ("\x7b\n  \"$type\": \"Issue\",\n  \"summary\": \"Issue X-1\"\n\x7d" ≠
      "\x7b\n  \"$type\": \"Issue\"\n\x7d") := by
  refine ⟨rfl, rfl, ?_⟩
  decide

/-- C5 (amended): `get_issue` passes every successful remote response
through unchanged — the produced string is exactly the serialization of
the remote value — except when the response is a mapping whose `$type` is
`'Issue'` and which lacks a `summary` key, in which case the default
summary `'Issue <issue_id>'` is appended and all original fields are still
preserved unchanged. -/
theorem get_issue_pass_through (env : Env) (issueId : String) :
    (∀ v s, env.api [] (Call.get ("issues/" ++ issueId ++ "?fields=" ++
          issueFieldList) []) = .ok v →
      needsDefaultSummary v = false →
      dumpsInd 0 v = .ok s →
      getIssue env issueId =
        (.ok s, [Call.get ("issues/" ++ issueId ++ "?fields=" ++ issueFieldList) []])) ∧
    (∀ fs s, env.api [] (Call.get ("issues/" ++ issueId ++ "?fields=" ++
          issueFieldList) []) = .ok (.dict fs) →
      needsDefaultSummary (.dict fs) = true →
      dumpsInd 0 (.dict (fs ++ [("summary", .str ("Issue " ++ issueId))])) = .ok s →
      getIssue env issueId =
        (.ok s, [Call.get ("issues/" ++ issueId ++ "?fields=" ++ issueFieldList) []])) := by
  constructor
  · intro v s henv hns hd
    simp only [getIssue]
    rw [henv]
    simp only [enhanceIssue, hns, Bool.false_eq_true, if_false]
    rw [hd]
  · intro fs s henv hns hd
    simp only [getIssue]
    rw [henv]
    simp only [enhanceIssue, hns, if_true]
    rw [hd]

/-- Witness for the amended C5: a response without the minimal-response
shape is serialized exactly as received. -/
theorem get_issue_pass_through_witness :
    getIssue ⟨fun _ _ => .ok (.dict [("id", .str "2-1"), ("summary", .str "A")]), ""⟩
        "X-1" =
      (.ok "\x7b\n  \"id\": \"2-1\",\n  \"summary\": \"A\"\n\x7d",
       [Call.get ("issues/X-1?fields=" ++ issueFieldList) []]) :=
  (get_issue_pass_through
      ⟨fun _ _ => .ok (.dict [("id", .str "2-1"), ("summary", .str "A")]), ""⟩
      "X-1").1 (.dict [("id", .str "2-1"), ("summary", .str "A")])
    "\x7b\n  \"id\": \"2-1\",\n  \"summary\": \"A\"\n\x7d" rfl rfl rfl

/-- Helper: setting a key makes it present with the new value. -/
theorem lookup_assocSet_self (fs : List (String × PyVal)) (k : String) (v : PyVal) :
    (assocSet fs k v).lookup k = some v := by
  induction fs with
  | nil => simp [assocSet, List.lookup]
  | cons hd tl ih =>
      obtain ⟨k', v'⟩ := hd
      by_cases h : k' = k
      · subst h
        simp [assocSet, List.lookup]
      · have hb : (k == k') = false := by
          simp only [beq_eq_false_iff_ne]
          exact Ne.symm h
        simp [assocSet, h, List.lookup, hb, ih]

/-- Helper: setting a key leaves other keys' lookups unchanged. -/
theorem lookup_assocSet_other (fs : List (String × PyVal)) (k k' : String)
    (v : PyVal) (h : k' ≠ k) :
    (assocSet fs k v).lookup k' = fs.lookup k' := by
  have hb : (k' == k) = false := by
    simp only [beq_eq_false_iff_ne]
    exact h
  induction fs with
  | nil => simp [assocSet, List.lookup, hb]
  | cons hd tl ih =>
      obtain ⟨k0, v0⟩ := hd
      by_cases h0 : k0 = k
      · subst h0
        simp [assocSet, List.lookup, hb]
      · simp only [assocSet, h0, if_false, List.lookup]
        cases hk : k' == k0 <;> simp [ih]

/-- Helper: the normalized create response is always a mapping. -/
theorem prepareBase_is_dict (issue : PyVal) (summary : String)
    (description : Option String) (project : String) :
    ∃ fs, prepareBase issue summary description project = .dict fs := by
  cases issue <;> simp [prepareBase, PyVal.hasAttr, PyVal.modelDump]
  case obj d attrs r => cases d <;> simp

/-- Helper: a generated issue URL is never the empty string. -/
theorem generated_url_not_empty (a c : String) :
    (a ++ "/issue/" ++ c).isEmpty = false := by
  rw [Bool.eq_false_iff]
  intro h
  have h2 := congrArg String.length ((String.isEmpty_iff _).mp h)
  rw [String.length_append, String.length_append] at h2
  have h7 : ("/issue/" : String).length = 7 := rfl
  have h0 : ("" : String).length = 0 := rfl
  rw [h7, h0] at h2
  omega

/-- C4 (amended): whenever `create_issue`'s response preparation attaches
the `status: success` marker — which happens exactly when a truthy
internal or readable ID was extracted from the create response, for every
response shape — the attached `url` equals `<base_url>/issue/<readable
id>` when the extracted readable ID is truthy and `<base_url>/issue/<id>`
otherwise, with `base_url` the configured YouTrack base URL (or the
hard-coded default when unset); and the shaping path of `create_issue`
serializes exactly this prepared value.  (A create response that itself
contains `status: "success"` but yields no extractable ID passes through
without a `url` field; see the counterexample.) -/
theorem create_issue_url_format (cfgUrl : String) (issue : PyVal)
    (summary : String) (description : Option String) (project : String)
    (u : String)
    (hu : generateIssueUrl cfgUrl (extractIssueIds issue).1
        (extractIssueIds issue).2 = some u) :
    dictLookup (prepareIssueResponse issue (some u) summary description project)
        "url" = some (.str u) ∧
    dictLookup (prepareIssueResponse issue (some u) summary description project)
        "status" = some (.str "success") ∧
    u = (if cfgUrl.isEmpty then "https://youtrack.gaijin.team" else cfgUrl) ++
        "/issue/" ++
        (if (extractIssueIds issue).2.truthy then pyStr (extractIssueIds issue).2
         else pyStr (extractIssueIds issue).1) ∧
    (∀ api s,
      dumpsInd 0 (prepareIssueResponse issue
          (generateIssueUrl cfgUrl (extractIssueIds issue).1
            (extractIssueIds issue).2) summary description project) = .ok s →
      (∀ fs, issue = .dict fs → (dictGet fs "error").truthy = false) →
      createIssueFinish ⟨api, cfgUrl⟩ project summary description issue = .ok s) := by
  obtain ⟨fs, hfs⟩ := prepareBase_is_dict issue summary description project
  have main : ∀ x : String,
      u = (if cfgUrl.isEmpty then "https://youtrack.gaijin.team" else cfgUrl) ++
          "/issue/" ++ x →
      dictLookup (prepareIssueResponse issue (some u) summary description project)
          "url" = some (.str u) ∧
      dictLookup (prepareIssueResponse issue (some u) summary description project)
          "status" = some (.str "success") := by
    intro x hx
    have hne : u.isEmpty = false := by
      rw [hx]
      exact generated_url_not_empty _ _
    have hfin : prepareIssueResponse issue (some u) summary description project =
        .dict (assocSet (assocSet fs "url" (.str u)) "status" (.str "success")) := by
      simp only [prepareIssueResponse]
      rw [hfs]
      simp only [hne, Bool.false_eq_true, if_false]
    rw [hfin]
    constructor
    · simp only [dictLookup]
      rw [lookup_assocSet_other _ _ _ _ (by decide), lookup_assocSet_self]
    · simp only [dictLookup]
      rw [lookup_assocSet_self]
  have hfourth : ∀ api s,
      dumpsInd 0 (prepareIssueResponse issue
          (generateIssueUrl cfgUrl (extractIssueIds issue).1
            (extractIssueIds issue).2) summary description project) = .ok s →
      (∀ gs, issue = .dict gs → (dictGet gs "error").truthy = false) →
      createIssueFinish ⟨api, cfgUrl⟩ project summary description issue = .ok s := by
    intro api s hd hnerr
    cases issue with
    | dict gs =>
        have he := hnerr gs rfl
        simp only [createIssueFinish, he, Bool.false_eq_true, if_false]
        rw [hd]
    | none =>
        simp only [createIssueFinish]
        rw [hd]
    | bool b =>
        simp only [createIssueFinish]
        rw [hd]
    | int n =>
        simp only [createIssueFinish]
        rw [hd]
    | str s' =>
        simp only [createIssueFinish]
        rw [hd]
    | list xs =>
        simp only [createIssueFinish]
        rw [hd]
    | obj d attrs r =>
        simp only [createIssueFinish]
        rw [hd]
  simp only [generateIssueUrl] at hu
  split at hu
  · exact absurd hu (by simp)
  · split at hu
    · have hueq : u = (if cfgUrl.isEmpty then "https://youtrack.gaijin.team"
          else cfgUrl) ++ "/issue/" ++ pyStr (extractIssueIds issue).2 := by
        injection hu with h
        exact h.symm
      rcases main _ hueq with ⟨h1, h2⟩
      refine ⟨h1, h2, ?_, hfourth⟩
      rw [hueq]
      congr 1
      split
      · rfl
      · rename_i hrf
        rename_i hcond _
        simp only [Bool.not_eq_true, Bool.or_eq_true] at hcond
        exact absurd ‹(extractIssueIds issue).2.truthy = true› hrf
    · split at hu
      · have hueq : u = (if cfgUrl.isEmpty then "https://youtrack.gaijin.team"
            else cfgUrl) ++ "/issue/" ++ pyStr (extractIssueIds issue).1 := by
          injection hu with h
          exact h.symm
        rcases main _ hueq with ⟨h1, h2⟩
        refine ⟨h1, h2, ?_, hfourth⟩
        rw [hueq]
        congr 1
        split
        · rename_i hrt
          rename_i hit _
          exact absurd hrt (by assumption)
        · rfl
      · exact absurd hu (by simp)

/-- C4 counterexample: a create response that itself carries `status:
"success"` but no `id`/`idReadable` is returned by `create_issue` as a
successful-looking result without any `url` field, refuting the claim
that every result whose status field is `'success'` contains a `url`. -/
theorem create_issue_url_counterexample :
    createIssue ⟨fun _ _ => .ok (.dict [("status", .str "success")]), ""⟩ "0-1"
        (some "s") Option.none Option.none =
      (.ok "\x7b\n  \"status\": \"success\"\n\x7d",
       [Call.apiCreateIssue (.str "0-1") "s" Option.none (.dict [])]) ∧
    dictLookup (prepareIssueResponse (.dict [("status", .str "success")])
        (generateIssueUrl ""
          (extractIssueIds (.dict [("status", .str "success")])).1
          (extractIssueIds (.dict [("status", .str "success")])).2)
        "s" Option.none "0-1") "status" = some (.str "success") ∧
    dictLookup (prepareIssueResponse (.dict [("status", .str "success")])
        (generateIssueUrl ""
          (extractIssueIds (.dict [("status", .str "success")])).1
          (extractIssueIds (.dict [("status", .str "success")])).2)
        "s" Option.none "0-1") "url" = Option.none :=
  ⟨rfl, rfl, rfl⟩

/-- Witness for the amended C4: a mapping response carrying a readable ID
gets `url = <default base>/issue/<readable id>` and `status: success`. -/
theorem create_issue_url_format_witness :
    dictLookup (prepareIssueResponse
        (.dict [("id", .str "2-1"), ("idReadable", .str "DEMO-1")])
        (some "https://youtrack.gaijin.team/issue/DEMO-1") "s" Option.none "DEMO")
        "url" = some (.str "https://youtrack.gaijin.team/issue/DEMO-1") ∧
    dictLookup (prepareIssueResponse
        (.dict [("id", .str "2-1"), ("idReadable", .str "DEMO-1")])
        (some "https://youtrack.gaijin.team/issue/DEMO-1") "s" Option.none "DEMO")
        "status" = some (.str "success") ∧
    "https://youtrack.gaijin.team/issue/DEMO-1" =
      (if ("" : String).isEmpty then "https://youtrack.gaijin.team" else "") ++
      "/issue/" ++
      (if (extractIssueIds
            (.dict [("id", .str "2-1"), ("idReadable", .str "DEMO-1")])).2.truthy
       then pyStr (extractIssueIds
            (.dict [("id", .str "2-1"), ("idReadable", .str "DEMO-1")])).2
       else pyStr (extractIssueIds
            (.dict [("id", .str "2-1"), ("idReadable", .str "DEMO-1")])).1) := by
  have h := create_issue_url_format "" 
      (.dict [("id", .str "2-1"), ("idReadable", .str "DEMO-1")]) "s" Option.none
      "DEMO" "https://youtrack.gaijin.team/issue/DEMO-1" rfl
  exact ⟨h.1, h.2.1, h.2.2.1⟩

/-- Helper: the shaping path of `create_issue` never raises. -/
theorem createIssueFinish_total (env : Env) (project summaryS : String)
    (description : Option String) (issue : PyVal) :
    ∃ s, createIssueFinish env project summaryS description issue = .ok s := by
  simp only [createIssueFinish]
  repeat
    first
      | exact ⟨_, rfl⟩
      | split

/-- Helper: the creation half of `create_issue` never raises. -/
theorem createIssueCreate_total (env : Env) (project summaryS : String)
    (description : Option String) (customFields : Option PyVal)
    (projectId : PyVal) (t0 : List Call) :
    ∃ s t, createIssueCreate env project summaryS description customFields
        projectId t0 = (.ok s, t) := by
  simp only [createIssueCreate]
  cases henv : env.api t0 (Call.apiCreateIssue projectId summaryS description
      (additionalFieldsOf customFields)) with
  | error e => exact ⟨_, _, rfl⟩
  | ok issue =>
      obtain ⟨s, hs⟩ := createIssueFinish_total env project summaryS description issue
      exact ⟨s, _, congrArg₂ Prod.mk hs rfl⟩

/-- Helper: the name-resolution fallback of `get_project_issues` never
raises. -/
theorem getProjectIssuesFallback_total (env : Env) (pid : String) (limit : Int)
    (t0 : List Call) :
    ∃ s t, getProjectIssuesFallback env pid limit t0 = (.ok s, t) := by
  simp only [getProjectIssuesFallback]
  repeat
    first
      | exact ⟨_, _, rfl⟩
      | split

/-- Helper: the re-fetch half of `update_project` never raises. -/
theorem updateProjectRefetch_total (env : Env) (pid : String) (t2 : List Call) :
    ∃ s t, updateProjectRefetch env pid t2 = (.ok s, t) := by
  simp only [updateProjectRefetch]
  repeat
    first
      | exact ⟨_, _, rfl⟩
      | split

/-- A tool invocation returned a JSON string to its caller rather than
propagating an exception. -/
def returnsOk (r : TRes) : Prop := ∃ s t, r = (Except.ok s, t)

/-- C1: every tool operation of the issue and project façades returns a
JSON-encoded string for every behaviour of the underlying HTTP client and
API resources — including raising arbitrary exceptions at any call — and
never propagates an exception; and for the cited operations a fault of
the underlying call surfaces as a JSON object carrying an `error` key. -/
theorem tools_never_raise :
    (∀ env i, returnsOk (getIssue env i)) ∧
    (∀ env i, returnsOk (getIssueRaw env i)) ∧
    (∀ env q l, returnsOk (searchIssues env q l)) ∧
    (∀ env p s d cf, returnsOk (createIssue env p s d cf)) ∧
    (∀ env i t, returnsOk (addComment env i t)) ∧
    (∀ env a, returnsOk (getProjects env a)) ∧
    (∀ env p q, returnsOk (getProject env p q)) ∧
    (∀ env n, returnsOk (getProjectByNameTool env n)) ∧
    (∀ env p q l, returnsOk (getProjectIssues env p q l)) ∧
    (∀ env p q, returnsOk (getCustomFields env p q)) ∧
    (∀ env p q, returnsOk (getProjectDetailed env p q)) ∧
    (∀ env p q, returnsOk (getProjectFieldsTool env p q)) ∧
    (∀ env n sn l d, returnsOk (createProject env n sn l d)) ∧
    (∀ env p q n d a l sn, returnsOk (updateProject env p q n d a l sn)) ∧
    (∀ env i e,
      env.api [] (Call.get ("issues/" ++ i ++ "?fields=" ++ issueFieldList) []) =
        .error e →
      getIssue env i =
        (.ok (dumpsStrObj [("error", e.msg)]),
         [Call.get ("issues/" ++ i ++ "?fields=" ++ issueFieldList) []])) ∧
    (∀ env pid l e, pid ≠ "" →
      env.api [] (Call.apiGetProjectIssues (.str pid) l) = .error e →
      pyStartsWith e.msg "Project not found" = false →
      getProjectIssues env (some pid) Option.none l =
        (.ok (dumpsStrObj [("error", e.msg)]),
         [Call.apiGetProjectIssues (.str pid) l])) ∧
    (∀ env pid n d a ld sn e, pid ≠ "" →
      env.api [] (Call.apiGetProject pid) = .error e →
      updateProject env (some pid) Option.none n d a ld sn =
        (.ok (dumpsStrObj [("error", "Could not update project: " ++ e.msg)]),
         [Call.apiGetProject pid])) := by
  refine ⟨?_, ?_, ?_, ?_, ?_, ?_, ?_, ?_, ?_, ?_, ?_, ?_, ?_, ?_, ?_, ?_, ?_⟩
  · intro env i
    simp only [getIssue, returnsOk]
    repeat
      first
        | exact ⟨_, _, rfl⟩
        | split
  · intro env i
    simp only [getIssueRaw, returnsOk]
    repeat
      first
        | exact ⟨_, _, rfl⟩
        | split
  · intro env q l
    simp only [searchIssues, returnsOk]
    repeat
      first
        | exact ⟨_, _, rfl⟩
        | split
  · intro env p s d cf
    simp only [createIssue, returnsOk]
    repeat
      first
        | exact ⟨_, _, rfl⟩
        | exact createIssueCreate_total _ _ _ _ _ _ _
        | split
  · intro env i t
    simp only [addComment, returnsOk]
    repeat
      first
        | exact ⟨_, _, rfl⟩
        | split
  · intro env a
    simp only [getProjects, returnsOk]
    repeat
      first
        | exact ⟨_, _, rfl⟩
        | split
  · intro env p q
    simp only [getProject, returnsOk]
    repeat
      first
        | exact ⟨_, _, rfl⟩
        | split
  · intro env n
    simp only [getProjectByNameTool, returnsOk]
    repeat
      first
        | exact ⟨_, _, rfl⟩
        | split
  · intro env p q l
    simp only [getProjectIssues, returnsOk]
    repeat
      first
        | exact ⟨_, _, rfl⟩
        | exact getProjectIssuesFallback_total _ _ _ _
        | split
  · intro env p q
    simp only [getCustomFields, returnsOk]
    repeat
      first
        | exact ⟨_, _, rfl⟩
        | split
  · intro env p q
    simp only [getProjectDetailed, returnsOk]
    repeat
      first
        | exact ⟨_, _, rfl⟩
        | split
  · intro env p q
    simp only [getProjectFieldsTool, returnsOk]
    repeat
      first
        | exact ⟨_, _, rfl⟩
        | split
  · intro env n sn l d
    simp only [createProject, returnsOk]
    repeat
      first
        | exact ⟨_, _, rfl⟩
        | split
  · intro env p q n d a l sn
    simp only [updateProject, returnsOk]
    repeat
      first
        | exact ⟨_, _, rfl⟩
        | exact updateProjectRefetch_total _ _ _
        | split
  · intro env i e henv
    simp only [getIssue]
    rw [henv]
  · intro env pid l e hp henv hmsg
    have hpe : pid.isEmpty = false := isEmpty_false_of_ne hp
    have hor : pyOrStr (some pid) Option.none = some pid := by simp [pyOrStr, hpe]
    simp only [getProjectIssues, hor, optTruthy, hpe, Bool.not_false, if_true,
      Option.getD_some]
    rw [henv]
    simp [hmsg]
  · intro env pid n d a ld sn e hp henv
    have hpe : pid.isEmpty = false := isEmpty_false_of_ne hp
    have hor : pyOrStr (some pid) Option.none = some pid := by simp [pyOrStr, hpe]
    simp only [updateProject, hor, optTruthy, hpe, Bool.not_false, if_true,
      Option.getD_some]
    rw [henv]
    rfl

/-- Witness for C1 at a concrete environment whose every call raises. -/
theorem tools_never_raise_witness :
    returnsOk (getIssue ⟨fun _ _ => .error ⟨"boom", Option.none⟩, ""⟩ "A-1") ∧
    getIssue ⟨fun _ _ => .error ⟨"boom", Option.none⟩, ""⟩ "A-1" =
      (.ok "\x7b\"error\": \"boom\"\x7d",
       [Call.get ("issues/A-1?fields=" ++ issueFieldList) []]) ∧
    getProjectIssues ⟨fun _ _ => .error ⟨"boom", Option.none⟩, ""⟩ (some "0-1")
        Option.none 10 =
      (.ok "\x7b\"error\": \"boom\"\x7d",
       [Call.apiGetProjectIssues (.str "0-1") 10]) ∧
    updateProject ⟨fun _ _ => .error ⟨"boom", Option.none⟩, ""⟩ (some "0-1")
        Option.none Option.none Option.none Option.none Option.none Option.none =
      (.ok "\x7b\"error\": \"Could not update project: boom\"\x7d",
       [Call.apiGetProject "0-1"]) := by
  refine ⟨tools_never_raise.1 _ "A-1", ?_, ?_, ?_⟩
  · have h := tools_never_raise.2.2.2.2.2.2.2.2.2.2.2.2.2.2.1
        ⟨fun _ _ => .error ⟨"boom", Option.none⟩, ""⟩ "A-1" ⟨"boom", Option.none⟩ rfl
    rw [h]
    rfl
  · have h := tools_never_raise.2.2.2.2.2.2.2.2.2.2.2.2.2.2.2.1
        ⟨fun _ _ => .error ⟨"boom", Option.none⟩, ""⟩ "0-1" 10 ⟨"boom", Option.none⟩
        (by decide) rfl (by decide)
    rw [h]
    rfl
  · have h := tools_never_raise.2.2.2.2.2.2.2.2.2.2.2.2.2.2.2.2
        ⟨fun _ _ => .error ⟨"boom", Option.none⟩, ""⟩ "0-1" Option.none Option.none
        Option.none Option.none Option.none ⟨"boom", Option.none⟩ (by decide) rfl
    rw [h]
    rfl
